import Mathlib

/-!
Formal model of the oil-price-scraper orchestration core.

The Go source is embedded shallowly:

* `internal/models` (models.go): `PriceScope`, `PriceResult`.
* `internal/scraper` (scraper.go): `Metrics`, `MetricsSnapshot`,
  `Scraper.ScrapeAll`, `Scraper.ScrapeProvider`, `Scraper.Backfill`,
  `Scraper.HasScrapedToday`, `Scraper.GetMetrics`, `Metrics.GetSnapshot`.
* `internal/database` (PostgreSQL variant, database.go +
  migrations/001_initial_schema.sql): the `oil_prices` table is a list of
  rows, `InsertPrice` is the `ON CONFLICT ... DO UPDATE` upsert over the
  `UNIQUE NULLS NOT DISTINCT (provider, product_type, price_date, zip_code)`
  constraint, `ExistsForDate` is the `COUNT(*) > 0` query with its explicit
  NULL-handling predicate.
* `internal/scheduler`: `calculateNextScrapeTime`.

Conventions: Go `time.Time` values are modelled as seconds since an epoch
(`Nat`) with fixed 86400-second days (the code runs in one fixed location;
DST is out of scope); calendar dates are day indices (`Nat`); Go `float64`
prices are never computed with, only copied, so they are modelled as `Int`;
byte slices / strings holding raw payloads are `List UInt8`; Go `nil`
pointers are `Option`; fallible Go calls returning `(T, error)` are
`Except String T`. Go maps are modelled as `List Provider` for the
iterable registry and as a function `String → Option Metrics` for the
per-provider metrics heap. External collaborators (provider fetches, the
storage gateway) are parameters: a `Provider` record carries the outcome of
its fetches, and a `DBModel σ` carries the gateway's behaviour over an
abstract gateway state `σ`; `pgDB` instantiates it with the concrete
PostgreSQL table semantics.
-/

namespace OilScraper

/-- models.PriceScope: geographical scope of a price. `localScope` embeds
`PriceScopeLocal` ("local"), `nationalScope` embeds `PriceScopeNational`
("national"). -/
inductive PriceScope where
  | localScope
  | nationalScope
deriving DecidableEq, Repr

/-- models.PriceResult: the unified observation type returned by providers. -/
structure PriceResult where
  date : Nat
  pricePer100L : Int
  currency : String
  provider : String
  productType : String
  scope : PriceScope
  zipCode : String
  rawResponse : List UInt8
  fetchedAt : Nat
deriving DecidableEq, Repr

/-- scraper.Metrics: per-provider scraping metrics (the mutex is a
synchronisation artefact with no sequential content and is not modelled;
all claim-relevant mutations are sequential). Field types follow the Go
struct; counters are the Go int64 counters (never decremented, far from
overflow, so `Nat`). -/
structure Metrics where
  totalRequests : Nat
  totalErrors : Nat
  lastScrapeAt : Option Nat
  lastScrapeSuccess : Bool
  lastResponseTime : Nat
  lastPrice : Option Int
  lastError : Option String
  lastRawResponse : List UInt8
deriving DecidableEq, Repr

/-- The Go zero value `&Metrics{}` installed by RegisterProvider. -/
def Metrics.freshMetrics : Metrics :=
  { totalRequests := 0, totalErrors := 0, lastScrapeAt := none,
    lastScrapeSuccess := false, lastResponseTime := 0, lastPrice := none,
    lastError := none, lastRawResponse := [] }

/-- scraper.MetricsSnapshot: the value copy returned by Metrics.GetSnapshot. -/
structure MetricsSnapshot where
  totalRequests : Nat
  totalErrors : Nat
  lastScrapeAt : Option Nat
  lastScrapeSuccess : Bool
  lastResponseTime : Nat
  lastPrice : Option Int
  lastError : Option String
  lastRawResponse : List UInt8
deriving DecidableEq, Repr

/-- scraper.Metrics.GetSnapshot: copies every field of the live record into
a fresh MetricsSnapshot value (under RLock in the source). -/
def Metrics.GetSnapshot (m : Metrics) : MetricsSnapshot :=
  { totalRequests := m.totalRequests, totalErrors := m.totalErrors,
    lastScrapeAt := m.lastScrapeAt, lastScrapeSuccess := m.lastScrapeSuccess,
    lastResponseTime := m.lastResponseTime, lastPrice := m.lastPrice,
    lastError := m.lastError, lastRawResponse := m.lastRawResponse }

/-- api.Provider: a registered provider adapter. The fetch methods are
external collaborators; a `Provider` value fixes their behaviour for the
calls under consideration (`fetchCurrentPrices` is the outcome of
`FetchCurrentPrices(ctx)`, `fetchHistoricalPrices from to` the outcome of
`FetchHistoricalPrices(ctx, from, to)`). -/
structure Provider where
  name : String
  fetchCurrentPrices : Except String (List PriceResult)
  fetchHistoricalPrices : Nat → Nat → Except String (List PriceResult)
  supportsBackfill : Bool
  priceScope : PriceScope

/-- One row of the PostgreSQL `oil_prices` table (identity column and
created_at omitted; neither is read by the embedded operations). -/
structure StoreRow where
  provider : String
  productType : String
  priceDate : Nat
  pricePer100L : Int
  currency : String
  scope : PriceScope
  zipCode : Option String
  rawResponse : List UInt8
  fetchedAt : Nat
deriving DecidableEq, Repr

/-- database.InsertPrice / ExistsForDate: `var zipCode *string; if
price.ZipCode != "" { zipCode = &price.ZipCode }` — the empty string is
passed to SQL as NULL. -/
def zipParam (zipCode : String) : Option String :=
  if zipCode = "" then none else some zipCode

/-- Row matches the upsert's conflict target `(provider, product_type,
price_date, zip_code)`; the constraint is declared UNIQUE NULLS NOT
DISTINCT, so NULL zip codes compare equal (plain Option equality). -/
def conflictKeyMatch (r : StoreRow) (provider productType : String)
    (priceDate : Nat) (zip : Option String) : Bool :=
  r.provider == provider && r.productType == productType &&
    r.priceDate == priceDate && r.zipCode == zip

/-- database.InsertPrice: `INSERT ... ON CONFLICT (provider, product_type,
price_date, zip_code) DO UPDATE SET price_per_100l = ..., raw_response =
..., fetched_at = ...`. `rawResponse` stays nil (empty) unless
storeRawResponse is set. -/
def InsertPrice (table : List StoreRow) (price : PriceResult)
    (storeRawResponse : Bool) : List StoreRow :=
  let rawResponse := if storeRawResponse then price.rawResponse else []
  let zip := zipParam price.zipCode
  if table.any (fun r =>
      conflictKeyMatch r price.provider price.productType price.date zip) then
    table.map (fun r =>
      if conflictKeyMatch r price.provider price.productType price.date zip then
        { r with pricePer100L := price.pricePer100L,
                 rawResponse := rawResponse, fetchedAt := price.fetchedAt }
      else r)
  else
    table ++ [{ provider := price.provider, productType := price.productType,
                priceDate := price.date, pricePer100L := price.pricePer100L,
                currency := price.currency, scope := price.scope,
                zipCode := zip, rawResponse := rawResponse,
                fetchedAt := price.fetchedAt }]

/-- The WHERE clause `zip_code = $4 OR (zip_code IS NULL AND $4 IS NULL)`
of ExistsForDate: SQL equality is not-true when either side is NULL, the
second disjunct handles the NULL/NULL case. -/
def sqlZipMatch (rowZip param : Option String) : Bool :=
  (match rowZip, param with
   | some a, some b => a == b
   | _, _ => false) || (rowZip == none && param == none)

/-- database.ExistsForDate: `SELECT COUNT(*) FROM oil_prices WHERE provider
= $1 AND product_type = $2 AND price_date = $3 AND (zip_code = $4 OR
(zip_code IS NULL AND $4 IS NULL))`, result `count > 0`. -/
def ExistsForDate (table : List StoreRow) (provider productType : String)
    (date : Nat) (zipCode : String) : Bool :=
  let zp := zipParam zipCode
  decide (0 < (table.filter (fun r =>
    r.provider == provider && r.productType == productType &&
      r.priceDate == date && sqlZipMatch r.zipCode zp)).length)

/-- The logical key of a stored row: (provider, product_type, price_date,
zip_code), NULL zip being the single distinguished `none`. -/
def rowKey (r : StoreRow) : String × String × Nat × Option String :=
  (r.provider, r.productType, r.priceDate, r.zipCode)

/-- The logical key an observation is stored under (empty zip ↦ NULL). -/
def priceKey (p : PriceResult) : String × String × Nat × Option String :=
  (p.provider, p.productType, p.date, zipParam p.zipCode)

/-- The schema invariant enforced by `unique_provider_product_date`
(UNIQUE NULLS NOT DISTINCT): at most one row per logical key. -/
def AtMostOnePerKey (table : List StoreRow) : Prop :=
  (table.map rowKey).Nodup

instance (table : List StoreRow) : Decidable (AtMostOnePerKey table) :=
  inferInstanceAs (Decidable ((table.map rowKey).Nodup))

/-- The storage gateway as seen by the orchestrator: an abstract state `σ`
and the two fallible operations the scrape/backfill paths use. A concrete
behaviour (including injected failures) is one `DBModel` value. -/
structure DBModel (σ : Type) where
  existsForDate : σ → String → String → Nat → String → Except String Bool
  insertPrice : σ → PriceResult → Bool → Except String σ

/-- The real PostgreSQL gateway over the concrete table model: no
connectivity failures, semantics given by `ExistsForDate`/`InsertPrice`. -/
def pgDB : DBModel (List StoreRow) where
  existsForDate := fun t provider productType date zip =>
    .ok (ExistsForDate t provider productType date zip)
  insertPrice := fun t price storeRaw => .ok (InsertPrice t price storeRaw)

/-- Storage operations issued by the orchestrator's per-observation loop,
recorded as a trace so that non-issued calls are observable. -/
inductive StoreOp where
  | existsCheck (price : PriceResult)
  | insert (price : PriceResult)
deriving DecidableEq, Repr

def StoreOp.isExistsCheck : StoreOp → Bool
  | .existsCheck _ => true
  | .insert _ => false

/-- The store-prices loop shared by ScrapeProvider and Backfill
(scraper.go): for each observation, check existence by logical key; on a
check error, log and `continue`; if it exists, skip; otherwise call
InsertPrice, logging (not propagating) an insert error. Returns the final
gateway state and the trace of issued storage calls. -/
def storePrices (db : DBModel σ) (storeRawResponse : Bool) (dbState : σ) :
    List PriceResult → σ × List StoreOp
  | [] => (dbState, [])
  | price :: rest =>
    match db.existsForDate dbState price.provider price.productType
        price.date price.zipCode with
    | .error _ =>
      let r := storePrices db storeRawResponse dbState rest
      (r.1, .existsCheck price :: r.2)
    | .ok true =>
      let r := storePrices db storeRawResponse dbState rest
      (r.1, .existsCheck price :: r.2)
    | .ok false =>
      match db.insertPrice dbState price storeRawResponse with
      | .error _ =>
        let r := storePrices db storeRawResponse dbState rest
        (r.1, .existsCheck price :: .insert price :: r.2)
      | .ok dbState1 =>
        let r := storePrices db storeRawResponse dbState1 rest
        (r.1, .existsCheck price :: .insert price :: r.2)

/-- scraper.Scraper: the orchestrator state. The provider registry (a Go
map keyed by name; at most one provider per name) is a list in iteration
order; `providerMetrics` is the name-indexed heap of per-provider Metrics
records (`none` = no entry / nil pointer). -/
structure ScraperState (σ : Type) where
  providers : List Provider
  providerMetrics : String → Option Metrics
  storeRawResponse : Bool
  dbState : σ

/-- scraper.RegisterProvider: map assignment replaces any provider with the
same name and installs a fresh metrics record. -/
def RegisterProvider (s : ScraperState σ) (p : Provider) : ScraperState σ :=
  { s with
    providers := s.providers.filter (fun q => q.name != p.name) ++ [p],
    providerMetrics := fun n =>
      if n = p.name then some Metrics.freshMetrics else s.providerMetrics n }

/-- Point update of the metrics heap at one provider name (the Go code
mutates the `*Metrics` record in place under its lock). -/
def updateMetrics (pm : String → Option Metrics) (name : String)
    (f : Metrics → Metrics) : String → Option Metrics :=
  fun n => if n = name then (pm name).map f else pm n

/-- The raw-payload preview truncation in ScrapeProvider: `if len(rawResp)
> 10000 { rawResp = rawResp[:10000] + "..." }` (46 is the byte '.'). -/
def truncateRaw (raw : List UInt8) : List UInt8 :=
  if raw.length > 10000 then raw.take 10000 ++ [46, 46, 46] else raw

/-- What ScrapeProvider returns and the storage calls it issued. -/
structure ScrapeOutcome (σ : Type) where
  state : ScraperState σ
  result : Except String Unit
  storeOps : List StoreOp

/-- Body of scraper.ScrapeProvider after the provider has been resolved
(everything past the `if !ok` early return): increment totalRequests before
the fetch, then update the metrics record from the fetch outcome (error:
totalErrors++, success=false, error text; success: success=true, error
cleared, first observation's price and truncated non-empty raw payload
captured), return the fetch error if any, else run the store loop over all
returned observations. -/
def scrapeResolved (db : DBModel σ) (now duration : Nat)
    (s : ScraperState σ) (providerName : String) (provider : Provider) :
    ScrapeOutcome σ :=
  let pm1 := updateMetrics s.providerMetrics providerName
    (fun m => { m with totalRequests := m.totalRequests + 1 })
  match provider.fetchCurrentPrices with
  | .error err =>
    let pm2 := updateMetrics pm1 providerName (fun m =>
      { m with lastScrapeAt := some now, lastResponseTime := duration,
               totalErrors := m.totalErrors + 1,
               lastScrapeSuccess := false, lastError := some err })
    { state := { s with providerMetrics := pm2 },
      result := .error err, storeOps := [] }
  | .ok prices =>
    let pm2 := updateMetrics pm1 providerName (fun m =>
      let m1 := { m with lastScrapeAt := some now,
                         lastResponseTime := duration,
                         lastScrapeSuccess := true, lastError := none }
      match prices with
      | [] => m1
      | p0 :: _ =>
        let m2 := { m1 with lastPrice := some p0.pricePer100L }
        if 0 < p0.rawResponse.length then
          { m2 with lastRawResponse := truncateRaw p0.rawResponse }
        else m2)
    let r := storePrices db s.storeRawResponse s.dbState prices
    { state := { s with providerMetrics := pm2, dbState := r.1 },
      result := .ok (), storeOps := r.2 }

/-- scraper.ScrapeProvider. `now` is the wall clock read after the fetch
and `duration` the measured latency (both incidental inputs). Unknown
provider → warn and return nil; otherwise `scrapeResolved`. -/
def ScrapeProvider (db : DBModel σ) (now duration : Nat)
    (s : ScraperState σ) (providerName : String) : ScrapeOutcome σ :=
  match s.providers.find? (fun p => p.name == providerName) with
  | none => { state := s, result := .ok (), storeOps := [] }
  | some provider => scrapeResolved db now duration s providerName provider

/-- The loop body of scraper.ScrapeAll over the snapshotted provider list;
each provider's ScrapeProvider error is logged and discarded. -/
def scrapeAllLoop (db : DBModel σ) (now duration : Nat) :
    List Provider → ScraperState σ → ScraperState σ
  | [], s => s
  | p :: rest, s =>
    scrapeAllLoop db now duration rest (ScrapeProvider db now duration s p.name).state

/-- scraper.ScrapeAll: snapshot the registry, scrape each provider in turn
swallowing per-provider errors, `return nil`. -/
def ScrapeAll (db : DBModel σ) (now duration : Nat) (s : ScraperState σ) :
    ScraperState σ × Except String Unit :=
  (scrapeAllLoop db now duration s.providers s, .ok ())

/-- What Backfill returns and the storage calls it issued. -/
structure BackfillOutcome (σ : Type) where
  state : ScraperState σ
  result : Except String Unit
  storeOps : List StoreOp

/-- Body of scraper.Backfill after the provider has been resolved: provider
without backfill support → warn, return nil; otherwise one
FetchHistoricalPrices call (its error returned as-is) followed by the same
per-observation dedup-then-insert loop (the minDelay/maxDelay pacing
arguments are passed through to the adapter in the source and the
inserted/skipped tallies are only logged; neither affects the result). -/
def backfillResolved (db : DBModel σ) (s : ScraperState σ)
    (provider : Provider) (fromDate toDate : Nat) : BackfillOutcome σ :=
  if !provider.supportsBackfill then
    { state := s, result := .ok (), storeOps := [] }
  else
    match provider.fetchHistoricalPrices fromDate toDate with
    | .error err => { state := s, result := .error err, storeOps := [] }
    | .ok prices =>
      let r := storePrices db s.storeRawResponse s.dbState prices
      { state := { s with dbState := r.1 }, result := .ok (), storeOps := r.2 }

/-- scraper.Backfill entry: resolve the provider, warn-and-return-nil when
unknown, else `backfillResolved`. -/
def Backfill (db : DBModel σ) (s : ScraperState σ) (providerName : String)
    (fromDate toDate : Nat) : BackfillOutcome σ :=
  match s.providers.find? (fun p => p.name == providerName) with
  | none => { state := s, result := .ok (), storeOps := [] }
  | some provider => backfillResolved db s provider fromDate toDate

/-- Body of scraper.HasScrapedToday after the provider has been resolved:
local-scope provider → (false, nil) unconditionally; otherwise the gateway
existence check for (name, "standard", today, empty zip), propagating its
error. `today` embeds the truncated `time.Now()`. -/
def hasScrapedResolved (db : DBModel σ) (s : ScraperState σ) (today : Nat)
    (providerName : String) (provider : Provider) : Except String Bool :=
  if provider.priceScope = PriceScope.localScope then .ok false
  else
    match db.existsForDate s.dbState providerName "standard" today "" with
    | .error err => .error err
    | .ok b => .ok b

/-- scraper.HasScrapedToday entry: unknown provider → (false, nil), else
`hasScrapedResolved`. -/
def HasScrapedToday (db : DBModel σ) (s : ScraperState σ) (today : Nat)
    (providerName : String) : Except String Bool :=
  match s.providers.find? (fun p => p.name == providerName) with
  | none => .ok false
  | some provider => hasScrapedResolved db s today providerName provider

/-- The value scraper.GetMetrics returns: `s.providerMetrics[providerName]`
is a pointer to the per-provider Metrics record allocated at registration.
One record exists per name, so pointer identity is the name; reads through
the pointer go through the current state (`MetricsRef.deref`). -/
structure MetricsRef where
  name : String
deriving DecidableEq, Repr

/-- scraper.GetMetrics: returns the live `*Metrics` pointer for the name
(not a copy); the state argument only fixes which heap the pointer points
into. -/
def GetMetrics (_s : ScraperState σ) (providerName : String) : MetricsRef :=
  { name := providerName }

/-- Dereference a Metrics pointer in a given (current) scraper state. -/
def MetricsRef.deref (r : MetricsRef) (s : ScraperState σ) : Option Metrics :=
  s.providerMetrics r.name

/-- The `nextScrape` local of scheduler.calculateNextScrapeTime: today (the
day containing `now`) at `scrapeHour`:00:00. -/
def scheduledInstant (now scrapeHour : Nat) : Nat :=
  now / 86400 * 86400 + scrapeHour * 3600

/-- scheduler.calculateNextScrapeTime: today at the scrape hour, pushed to
tomorrow when `now.After(nextScrape)` (strictly after). -/
def calculateNextScrapeTime (now scrapeHour : Nat) : Nat :=
  let nextScrape := scheduledInstant now scrapeHour
  if nextScrape < now then nextScrape + 86400 else nextScrape

/-! ### Helper lemmas -/

theorem updateMetrics_self (pm : String → Option Metrics) (name : String)
    (f : Metrics → Metrics) : updateMetrics pm name f name = (pm name).map f := by
  simp [updateMetrics]

theorem updateMetrics_ne (pm : String → Option Metrics) {n name : String}
    (f : Metrics → Metrics) (h : n ≠ name) : updateMetrics pm name f n = pm n := by
  simp [updateMetrics, h]

theorem ScrapeProvider_none (db : DBModel σ) (now duration : Nat)
    (s : ScraperState σ) {name : String}
    (hf : s.providers.find? (fun q => q.name == name) = none) :
    ScrapeProvider db now duration s name
      = { state := s, result := .ok (), storeOps := [] } := by
  unfold ScrapeProvider
  rw [hf]

theorem ScrapeProvider_found (db : DBModel σ) (now duration : Nat)
    (s : ScraperState σ) {name : String} {p : Provider}
    (hf : s.providers.find? (fun q => q.name == name) = some p) :
    ScrapeProvider db now duration s name
      = scrapeResolved db now duration s name p := by
  unfold ScrapeProvider
  rw [hf]

theorem scrapeResolved_providers (db : DBModel σ) (now duration : Nat)
    (s : ScraperState σ) (name : String) (p : Provider) :
    (scrapeResolved db now duration s name p).state.providers
      = s.providers := by
  unfold scrapeResolved
  cases p.fetchCurrentPrices <;> rfl

theorem ScrapeProvider_providers (db : DBModel σ) (now duration : Nat)
    (s : ScraperState σ) (name : String) :
    (ScrapeProvider db now duration s name).state.providers = s.providers := by
  cases hf : s.providers.find? (fun q => q.name == name) with
  | none => rw [ScrapeProvider_none db now duration s hf]
  | some p =>
    rw [ScrapeProvider_found db now duration s hf]
    exact scrapeResolved_providers db now duration s name p

theorem scrapeResolved_metrics_ne (db : DBModel σ) (now duration : Nat)
    (s : ScraperState σ) {n name : String} (p : Provider) (h : n ≠ name) :
    (scrapeResolved db now duration s name p).state.providerMetrics n
      = s.providerMetrics n := by
  unfold scrapeResolved
  cases p.fetchCurrentPrices <;>
    simp only [updateMetrics_ne _ _ h]

theorem ScrapeProvider_metrics_ne (db : DBModel σ) (now duration : Nat)
    (s : ScraperState σ) {n name : String} (h : n ≠ name) :
    (ScrapeProvider db now duration s name).state.providerMetrics n
      = s.providerMetrics n := by
  cases hf : s.providers.find? (fun q => q.name == name) with
  | none => rw [ScrapeProvider_none db now duration s hf]
  | some p =>
    rw [ScrapeProvider_found db now duration s hf]
    exact scrapeResolved_metrics_ne db now duration s p h

theorem Backfill_found (db : DBModel σ) (s : ScraperState σ)
    {name : String} {p : Provider} (fromDate toDate : Nat)
    (hf : s.providers.find? (fun q => q.name == name) = some p) :
    Backfill db s name fromDate toDate
      = backfillResolved db s p fromDate toDate := by
  unfold Backfill
  rw [hf]

theorem HasScrapedToday_found (db : DBModel σ) (s : ScraperState σ)
    (today : Nat) {name : String} {p : Provider}
    (hf : s.providers.find? (fun q => q.name == name) = some p) :
    HasScrapedToday db s today name
      = hasScrapedResolved db s today name p := by
  unfold HasScrapedToday
  rw [hf]

/-- The complete effect of one ScrapeProvider call on the scraped
provider's own metrics record, as a single function of the fetch outcome. -/
def metricsTransform (now duration : Nat) (p : Provider) (m : Metrics) : Metrics :=
  let m0 := { m with totalRequests := m.totalRequests + 1 }
  match p.fetchCurrentPrices with
  | .error err =>
    { m0 with lastScrapeAt := some now, lastResponseTime := duration,
              totalErrors := m0.totalErrors + 1,
              lastScrapeSuccess := false, lastError := some err }
  | .ok prices =>
    let m1 := { m0 with lastScrapeAt := some now, lastResponseTime := duration,
                        lastScrapeSuccess := true, lastError := none }
    match prices with
    | [] => m1
    | p0 :: _ =>
      let m2 := { m1 with lastPrice := some p0.pricePer100L }
      if 0 < p0.rawResponse.length then
        { m2 with lastRawResponse := truncateRaw p0.rawResponse }
      else m2

theorem scrapeResolved_metrics_self (db : DBModel σ) (now duration : Nat)
    (s : ScraperState σ) (name : String) (p : Provider) :
    (scrapeResolved db now duration s name p).state.providerMetrics name
      = (s.providerMetrics name).map (metricsTransform now duration p) := by
  unfold scrapeResolved
  cases hm : s.providerMetrics name with
  | none =>
    cases p.fetchCurrentPrices <;>
      simp [updateMetrics, hm]
  | some m =>
    cases hfc : p.fetchCurrentPrices with
    | error e => simp [updateMetrics, hm, metricsTransform, hfc]
    | ok prices =>
      cases prices <;> simp [updateMetrics, hm, metricsTransform, hfc]

theorem ScrapeProvider_metrics_self (db : DBModel σ) (now duration : Nat)
    (s : ScraperState σ) {name : String} {p : Provider}
    (hf : s.providers.find? (fun q => q.name == name) = some p) :
    (ScrapeProvider db now duration s name).state.providerMetrics name
      = (s.providerMetrics name).map (metricsTransform now duration p) := by
  rw [ScrapeProvider_found db now duration s hf]
  exact scrapeResolved_metrics_self db now duration s name p

theorem find?_name_eq {P : List Provider}
    (hnd : (P.map Provider.name).Nodup) {p : Provider} (hp : p ∈ P) :
    P.find? (fun q => q.name == p.name) = some p := by
  induction P with
  | nil => cases hp
  | cons a rest ih =>
    simp only [List.map_cons, List.nodup_cons] at hnd
    rcases List.mem_cons.mp hp with h | h
    · subst h
      simp [List.find?_cons_of_pos]
    · have hne : a.name ≠ p.name := by
        intro he
        exact hnd.1 (he ▸ List.mem_map_of_mem Provider.name h)
      rw [List.find?_cons_of_neg _ (by simpa using hne)]
      exact ih hnd.2 h

theorem scrapeAllLoop_metrics_not_mem (db : DBModel σ) (now duration : Nat) :
    ∀ (l : List Provider) (s : ScraperState σ) {n : String},
    n ∉ l.map Provider.name →
    (scrapeAllLoop db now duration l s).providerMetrics n = s.providerMetrics n := by
  intro l
  induction l with
  | nil => intro s n _; rfl
  | cons a rest ih =>
    intro s n hn
    simp only [List.map_cons, List.mem_cons, not_or] at hn
    rw [scrapeAllLoop, ih _ hn.2, ScrapeProvider_metrics_ne _ _ _ _ hn.1]

theorem scrapeAllLoop_spec (db : DBModel σ) (now duration : Nat) :
    ∀ (l : List Provider) (s : ScraperState σ),
    (s.providers.map Provider.name).Nodup →
    (∀ q ∈ l, q ∈ s.providers) →
    (l.map Provider.name).Nodup →
    ∀ p ∈ l,
      (scrapeAllLoop db now duration l s).providerMetrics p.name
        = (s.providerMetrics p.name).map (metricsTransform now duration p) := by
  intro l
  induction l with
  | nil => intro s _ _ _ p hp; cases hp
  | cons a rest ih =>
    intro s hP hsub hl p hp
    simp only [List.map_cons, List.nodup_cons] at hl
    have ha : s.providers.find? (fun q => q.name == a.name) = some a :=
      find?_name_eq hP (hsub a (List.mem_cons_self a rest))
    have hprov : (ScrapeProvider db now duration s a.name).state.providers
        = s.providers := ScrapeProvider_providers db now duration s a.name
    rcases List.mem_cons.mp hp with h | h
    · subst h
      rw [scrapeAllLoop,
        scrapeAllLoop_metrics_not_mem db now duration rest _ hl.1,
        ScrapeProvider_metrics_self db now duration s ha]
    · have hne : p.name ≠ a.name := by
        intro he
        exact hl.1 (he ▸ List.mem_map_of_mem Provider.name h)
      rw [scrapeAllLoop,
        ih _ (hprov ▸ hP) (fun q hq => hprov ▸ hsub q (List.mem_cons_of_mem a hq)) hl.2 p h,
        ScrapeProvider_metrics_ne db now duration s hne]

theorem metricsTransform_totalRequests (now duration : Nat) (p : Provider)
    (m : Metrics) :
    (metricsTransform now duration p m).totalRequests = m.totalRequests + 1 := by
  unfold metricsTransform
  cases p.fetchCurrentPrices with
  | error e => rfl
  | ok prices =>
    cases prices with
    | nil => rfl
    | cons p0 rest =>
      dsimp only
      split <;> rfl

theorem metricsTransform_fetchError (now duration : Nat) (p : Provider)
    (e : String) (hfc : p.fetchCurrentPrices = .error e) (m : Metrics) :
    metricsTransform now duration p m
      = { m with totalRequests := m.totalRequests + 1,
                 totalErrors := m.totalErrors + 1,
                 lastScrapeAt := some now, lastResponseTime := duration,
                 lastScrapeSuccess := false, lastError := some e } := by
  unfold metricsTransform
  rw [hfc]

theorem metricsTransform_ok_totalErrors (now duration : Nat) (p : Provider)
    (prices : List PriceResult) (hfc : p.fetchCurrentPrices = .ok prices)
    (m : Metrics) :
    (metricsTransform now duration p m).totalErrors = m.totalErrors := by
  unfold metricsTransform
  rw [hfc]
  cases prices with
  | nil => rfl
  | cons p0 rest =>
    dsimp only
    split <;> rfl

theorem metricsTransform_ok_success (now duration : Nat) (p : Provider)
    (prices : List PriceResult) (hfc : p.fetchCurrentPrices = .ok prices)
    (m : Metrics) :
    (metricsTransform now duration p m).lastScrapeSuccess = true := by
  unfold metricsTransform
  rw [hfc]
  cases prices with
  | nil => rfl
  | cons p0 rest =>
    dsimp only
    split <;> rfl

theorem metricsTransform_ok_lastError (now duration : Nat) (p : Provider)
    (prices : List PriceResult) (hfc : p.fetchCurrentPrices = .ok prices)
    (m : Metrics) :
    (metricsTransform now duration p m).lastError = none := by
  unfold metricsTransform
  rw [hfc]
  cases prices with
  | nil => rfl
  | cons p0 rest =>
    dsimp only
    split <;> rfl

theorem metricsTransform_ok_lastPrice (now duration : Nat) (p : Provider)
    (p0 : PriceResult) (rest : List PriceResult)
    (hfc : p.fetchCurrentPrices = .ok (p0 :: rest)) (m : Metrics) :
    (metricsTransform now duration p m).lastPrice = some p0.pricePer100L := by
  unfold metricsTransform
  rw [hfc]
  dsimp only
  split <;> rfl

theorem storePrices_checks_all (db : DBModel σ) (storeRaw : Bool) :
    ∀ (l : List PriceResult) (dbS : σ),
      ((storePrices db storeRaw dbS l).2.filter StoreOp.isExistsCheck)
        = l.map StoreOp.existsCheck := by
  intro l
  induction l with
  | nil => intro dbS; rfl
  | cons q rest ih =>
    intro dbS
    unfold storePrices
    cases hE : db.existsForDate dbS q.provider q.productType q.date
        q.zipCode with
    | error e => simp [List.filter_cons, StoreOp.isExistsCheck, ih]
    | ok b =>
      cases b with
      | true => simp [List.filter_cons, StoreOp.isExistsCheck, ih]
      | false =>
        cases hI : db.insertPrice dbS q storeRaw with
        | error e => simp [List.filter_cons, StoreOp.isExistsCheck, ih]
        | ok dbS1 => simp [List.filter_cons, StoreOp.isExistsCheck, ih]

theorem conflictKeyMatch_eq_true_iff (r : StoreRow) (prov pt : String)
    (d : Nat) (zip : Option String) :
    conflictKeyMatch r prov pt d zip = true ↔ rowKey r = (prov, pt, d, zip) := by
  simp [conflictKeyMatch, rowKey, Prod.ext_iff, Bool.and_eq_true,
    and_assoc]

theorem sqlZipMatch_self (z : Option String) : sqlZipMatch z z = true := by
  cases z <;> simp [sqlZipMatch]

theorem InsertPrice_atMostOne (table : List StoreRow) (price : PriceResult)
    (storeRaw : Bool) (h : AtMostOnePerKey table) :
    AtMostOnePerKey (InsertPrice table price storeRaw) := by
  unfold InsertPrice AtMostOnePerKey
  dsimp only
  split
  · next hAny =>
    have hkeys : (table.map (fun r =>
        if conflictKeyMatch r price.provider price.productType price.date
            (zipParam price.zipCode) then
          { r with pricePer100L := price.pricePer100L,
                   rawResponse := if storeRaw then price.rawResponse else [],
                   fetchedAt := price.fetchedAt }
        else r)).map rowKey = table.map rowKey := by
      rw [List.map_map]
      apply List.map_congr_left
      intro r _
      by_cases hc : conflictKeyMatch r price.provider price.productType
          price.date (zipParam price.zipCode) = true <;>
        simp [hc, rowKey]
    rw [hkeys]
    exact h
  · next hAny =>
    rw [List.map_append]
    rw [List.nodup_append]
    refine ⟨h, List.nodup_singleton _, ?_⟩
    intro k hk hk1
    simp only [List.map_cons, List.map_nil, List.mem_singleton] at hk1
    obtain ⟨r, hr, hkr⟩ := List.mem_map.mp hk
    have hrk : rowKey r = (price.provider, price.productType, price.date,
        zipParam price.zipCode) := by
      rw [hkr, hk1]
      rfl
    exact hAny (List.any_eq_true.mpr ⟨r, hr,
      (conflictKeyMatch_eq_true_iff r _ _ _ _).mpr hrk⟩)

theorem InsertPrice_mem_key (table : List StoreRow) (price : PriceResult)
    (storeRaw : Bool) :
    ∃ r ∈ InsertPrice table price storeRaw, rowKey r = priceKey price := by
  unfold InsertPrice
  dsimp only
  split
  · next hAny =>
    obtain ⟨r, hr, hc⟩ := List.any_eq_true.mp hAny
    refine ⟨{ r with pricePer100L := price.pricePer100L,
                     rawResponse := if storeRaw then price.rawResponse else [],
                     fetchedAt := price.fetchedAt }, ?_, ?_⟩
    · refine List.mem_map.mpr ⟨r, hr, ?_⟩
      rw [if_pos hc]
    · exact (conflictKeyMatch_eq_true_iff r _ _ _ _).mp hc
  · exact ⟨_, List.mem_append_right _ (List.mem_singleton_self _), rfl⟩

theorem ExistsForDate_true_of_key (table : List StoreRow) (p2 : PriceResult)
    (r : StoreRow) (hr : r ∈ table) (hk : rowKey r = priceKey p2) :
    ExistsForDate table p2.provider p2.productType p2.date p2.zipCode
      = true := by
  unfold ExistsForDate
  simp only [decide_eq_true_eq]
  unfold rowKey priceKey at hk
  simp only [Prod.mk.injEq] at hk
  apply List.length_pos.mpr
  apply List.ne_nil_of_mem (a := r)
  apply List.mem_filter.mpr
  refine ⟨hr, ?_⟩
  simp [hk.1, hk.2.1, hk.2.2.1, hk.2.2.2, sqlZipMatch_self]

theorem storePrices_pgDB_atMostOne (storeRaw : Bool) :
    ∀ (prices : List PriceResult) (table : List StoreRow),
      AtMostOnePerKey table →
      AtMostOnePerKey (storePrices pgDB storeRaw table prices).1 := by
  intro prices
  induction prices with
  | nil => intro table h; exact h
  | cons q rest ih =>
    intro table h
    rw [storePrices]
    cases hEx : ExistsForDate table q.provider q.productType q.date
        q.zipCode with
    | true =>
      have hok : pgDB.existsForDate table q.provider q.productType q.date
          q.zipCode = .ok true := by
        simp [pgDB, hEx]
      rw [hok]
      exact ih table h
    | false =>
      have hok : pgDB.existsForDate table q.provider q.productType q.date
          q.zipCode = .ok false := by
        simp [pgDB, hEx]
      rw [hok]
      exact ih (InsertPrice table q storeRaw)
        (InsertPrice_atMostOne table q storeRaw h)

/-! ### Shared concrete fixtures for witnesses and counterexamples -/

/-- A national-scope observation as returned by a stub provider (price
97.81 scaled; `rawResponse` is the two bytes "{}"). -/
def sampleObs : PriceResult :=
  { date := 20123, pricePer100L := 9781, currency := "EUR",
    provider := "stub", productType := "standard",
    scope := .nationalScope, zipCode := "", rawResponse := [123, 125],
    fetchedAt := 1000 }

/-- A stub provider whose current-price fetch always succeeds with one
observation. -/
def okProvider : Provider :=
  { name := "stub", fetchCurrentPrices := .ok [sampleObs],
    fetchHistoricalPrices := fun _ _ => .error "backfill not supported",
    supportsBackfill := false, priceScope := .nationalScope }

/-- A stub provider whose current-price fetch always errors. -/
def badProvider : Provider :=
  { name := "bad", fetchCurrentPrices := .error "connection refused",
    fetchHistoricalPrices := fun _ _ => .error "backfill not supported",
    supportsBackfill := false, priceScope := .nationalScope }

/-- A scraper with the failing and the succeeding stub registered, fresh
metrics, an empty table. -/
def twoProviderState : ScraperState (List StoreRow) :=
  { providers := [badProvider, okProvider],
    providerMetrics := fun n =>
      if n = "bad" ∨ n = "stub" then some Metrics.freshMetrics else none,
    storeRawResponse := true, dbState := [] }

/-- A local-scope stub provider (regional prices) whose fetch returns no
observations. -/
def localProvider : Provider :=
  { name := "hoyer", fetchCurrentPrices := .ok [],
    fetchHistoricalPrices := fun _ _ => .error "backfill not supported",
    supportsBackfill := false, priceScope := .localScope }

/-- A stored row for ("stub", "standard", day 20123, NULL zip). -/
def stubRow : StoreRow :=
  { provider := "stub", productType := "standard", priceDate := 20123,
    pricePer100L := 9781, currency := "EUR", scope := .nationalScope,
    zipCode := none, rawResponse := [], fetchedAt := 1000 }

/-- A scraper with the local and the national stub registered and the
national stub's standard record already stored for day 20123. -/
def scrapedTodayState : ScraperState (List StoreRow) :=
  { providers := [localProvider, okProvider],
    providerMetrics := fun _ => none,
    storeRawResponse := false, dbState := [stubRow] }

/-- Metrics left over from an earlier scrape: nonzero counters, a recorded
price, a recorded error and a nonempty raw-payload preview. -/
def prevMetrics : Metrics :=
  { totalRequests := 7, totalErrors := 2, lastScrapeAt := some 11,
    lastScrapeSuccess := false, lastResponseTime := 5,
    lastPrice := some 1234, lastError := some "old error",
    lastRawResponse := [104, 105] }

/-- A provider whose fetch succeeds with an empty observation list. -/
def emptyFetchProvider : Provider :=
  { name := "empty", fetchCurrentPrices := .ok [],
    fetchHistoricalPrices := fun _ _ => .error "backfill not supported",
    supportsBackfill := false, priceScope := .nationalScope }

/-- A scraper holding `emptyFetchProvider` with `prevMetrics` left over. -/
def emptyFetchState : ScraperState (List StoreRow) :=
  { providers := [emptyFetchProvider],
    providerMetrics := fun n => if n = "empty" then some prevMetrics else none,
    storeRawResponse := true, dbState := [] }

/-- A scraper holding the succeeding stub whose observation's logical key
is already stored in the table. -/
def dedupState : ScraperState (List StoreRow) :=
  { providers := [okProvider],
    providerMetrics := fun n =>
      if n = "stub" then some Metrics.freshMetrics else none,
    storeRawResponse := false, dbState := [stubRow] }

/-- An observation with an empty raw payload. -/
def emptyRawObs : PriceResult :=
  { date := 20124, pricePer100L := 8800, currency := "EUR",
    provider := "noraw", productType := "standard",
    scope := .nationalScope, zipCode := "", rawResponse := [],
    fetchedAt := 2000 }

/-- A provider whose successful fetch returns one observation carrying no
raw payload. -/
def emptyRawProvider : Provider :=
  { name := "noraw", fetchCurrentPrices := .ok [emptyRawObs],
    fetchHistoricalPrices := fun _ _ => .error "backfill not supported",
    supportsBackfill := false, priceScope := .nationalScope }

/-- A scraper holding `emptyRawProvider` with `prevMetrics` left over. -/
def emptyRawState : ScraperState (List StoreRow) :=
  { providers := [emptyRawProvider],
    providerMetrics := fun n => if n = "noraw" then some prevMetrics else none,
    storeRawResponse := true, dbState := [] }

/-- A second national-scope observation with the same provider, product
type and date as `sampleObs` (no zip code) but a different price. -/
def natObs2 : PriceResult :=
  { sampleObs with pricePer100L := 9900, rawResponse := [], fetchedAt := 3000 }

/-- A local-scope observation for zip "12345". -/
def locObs1 : PriceResult :=
  { date := 20123, pricePer100L := 9000, currency := "EUR",
    provider := "hoyer", productType := "standard", scope := .localScope,
    zipCode := "12345", rawResponse := [], fetchedAt := 0 }

/-- The same local-scope observation for zip "54321". -/
def locObs2 : PriceResult :=
  { locObs1 with zipCode := "54321" }

/-! ### Claims -/

/-- C1: for every registered provider set (distinct names, as Go map keys),
every provider fetch behaviour and every storage-gateway behaviour,
ScrapeAll returns no error; every registered provider is still visited (its
totalRequests grows by exactly one); a provider whose fetch fails has the
failure recorded in its own metrics (totalErrors grows by one, success
flag false, error text stored); a provider whose fetch succeeds keeps its
error count and records the success and the first observation's price. -/
theorem scrapeAll_swallows_provider_errors {σ : Type} (db : DBModel σ)
    (now duration : Nat) (s : ScraperState σ)
    (hnd : (s.providers.map Provider.name).Nodup) :
    (ScrapeAll db now duration s).2 = Except.ok () ∧
    ∀ p ∈ s.providers,
      ((ScrapeAll db now duration s).1.providerMetrics p.name).map
          Metrics.totalRequests
        = (s.providerMetrics p.name).map (fun m => m.totalRequests + 1) ∧
      (∀ e, p.fetchCurrentPrices = .error e →
        ((ScrapeAll db now duration s).1.providerMetrics p.name).map
            Metrics.totalErrors
          = (s.providerMetrics p.name).map (fun m => m.totalErrors + 1) ∧
        ((ScrapeAll db now duration s).1.providerMetrics p.name).map
            Metrics.lastScrapeSuccess
          = (s.providerMetrics p.name).map (fun _ => false) ∧
        ((ScrapeAll db now duration s).1.providerMetrics p.name).map
            Metrics.lastError
          = (s.providerMetrics p.name).map (fun _ => some e)) ∧
      (∀ prices, p.fetchCurrentPrices = .ok prices →
        ((ScrapeAll db now duration s).1.providerMetrics p.name).map
            Metrics.totalErrors
          = (s.providerMetrics p.name).map Metrics.totalErrors ∧
        ((ScrapeAll db now duration s).1.providerMetrics p.name).map
            Metrics.lastScrapeSuccess
          = (s.providerMetrics p.name).map (fun _ => true) ∧
        ∀ p0 rest, prices = p0 :: rest →
          ((ScrapeAll db now duration s).1.providerMetrics p.name).map
              Metrics.lastPrice
            = (s.providerMetrics p.name).map
                (fun _ => some p0.pricePer100L)) := by
  constructor
  · rfl
  · intro p hp
    have H : (ScrapeAll db now duration s).1.providerMetrics p.name
        = (s.providerMetrics p.name).map (metricsTransform now duration p) :=
      scrapeAllLoop_spec db now duration s.providers s hnd (fun q hq => hq)
        hnd p hp
    refine ⟨?_, fun e hfc => ⟨?_, ?_, ?_⟩,
      fun prices hfc => ⟨?_, ?_, fun p0 rest hpr => ?_⟩⟩
    · rw [H]
      cases s.providerMetrics p.name <;>
        simp [metricsTransform_totalRequests]
    · rw [H]
      cases s.providerMetrics p.name <;>
        simp [metricsTransform_fetchError now duration p e hfc]
    · rw [H]
      cases s.providerMetrics p.name <;>
        simp [metricsTransform_fetchError now duration p e hfc]
    · rw [H]
      cases s.providerMetrics p.name <;>
        simp [metricsTransform_fetchError now duration p e hfc]
    · rw [H]
      cases s.providerMetrics p.name <;>
        simp [metricsTransform_ok_totalErrors now duration p prices hfc]
    · rw [H]
      cases s.providerMetrics p.name <;>
        simp [metricsTransform_ok_success now duration p prices hfc]
    · subst hpr
      rw [H]
      cases s.providerMetrics p.name <;>
        simp [metricsTransform_ok_lastPrice now duration p p0 rest hfc]

/-- Witness for C1: the partial-failure scenario itself — one failing and
one succeeding provider, ScrapeAll returns ok, the failing provider's error
count grows by one, the succeeding provider's last price is recorded. -/
theorem scrapeAll_swallows_provider_errors_witness :
    (ScrapeAll pgDB 5 7 twoProviderState).2 = Except.ok () ∧
    ((ScrapeAll pgDB 5 7 twoProviderState).1.providerMetrics
        badProvider.name).map Metrics.totalErrors
      = (twoProviderState.providerMetrics badProvider.name).map
          (fun m => m.totalErrors + 1) ∧
    ((ScrapeAll pgDB 5 7 twoProviderState).1.providerMetrics
        okProvider.name).map Metrics.lastPrice
      = (twoProviderState.providerMetrics okProvider.name).map
          (fun _ => some sampleObs.pricePer100L) := by
  have H := scrapeAll_swallows_provider_errors pgDB 5 7 twoProviderState
    (by decide)
  refine ⟨H.1, ?_, ?_⟩
  · exact ((H.2 badProvider (List.mem_cons_self _ _)).2.1
      "connection refused" rfl).1
  · exact ((H.2 okProvider (List.mem_cons_of_mem _
      (List.mem_cons_self _ _))).2.2 [sampleObs] rfl).2.2 sampleObs [] rfl

/-- C3 counterexample: with "now" exactly at today's configured hour
(day 0, 06:00:00 = 21600 s, configured hour 6) the instant is not still in
the future, yet calculateNextScrapeTime returns today's instant, not the
same hour tomorrow as the claim requires. -/
theorem calculateNextScrapeTime_boundary_cex :
    ¬ 21600 < scheduledInstant 21600 6 ∧
    calculateNextScrapeTime 21600 6 ≠ scheduledInstant 21600 6 + 86400 := by
  decide

/-- C3 amended: calculateNextScrapeTime returns today at the configured
hour whenever that instant has not already passed (now ≤ instant, i.e. not
`now.After(nextScrape)`), and the same hour tomorrow otherwise; the result
is never in the past relative to now. -/
theorem calculateNextScrapeTime_correct (now scrapeHour : Nat)
    (hh : scrapeHour ≤ 23) :
    (now ≤ scheduledInstant now scrapeHour →
      calculateNextScrapeTime now scrapeHour
        = scheduledInstant now scrapeHour) ∧
    (scheduledInstant now scrapeHour < now →
      calculateNextScrapeTime now scrapeHour
        = scheduledInstant now scrapeHour + 86400) ∧
    now ≤ calculateNextScrapeTime now scrapeHour := by
  unfold calculateNextScrapeTime scheduledInstant
  refine ⟨fun h => ?_, fun h => ?_, ?_⟩
  · rw [if_neg (by omega)]
  · rw [if_pos (by omega)]
  · dsimp only
    split
    · next h => omega
    · next h => omega

/-- Witness for C3 (amended): the spec's own vectors — now 14:00 with hour
6 yields 06:00 tomorrow, now 03:00 with hour 6 yields 06:00 today, and
neither result is in the past. -/
theorem calculateNextScrapeTime_correct_witness :
    calculateNextScrapeTime 50400 6 = scheduledInstant 50400 6 + 86400 ∧
    calculateNextScrapeTime 10800 6 = scheduledInstant 10800 6 ∧
    10800 ≤ calculateNextScrapeTime 10800 6 := by
  refine ⟨(calculateNextScrapeTime_correct 50400 6 (by decide)).2.1
      (by decide),
    (calculateNextScrapeTime_correct 10800 6 (by decide)).1 (by decide),
    (calculateNextScrapeTime_correct 10800 6 (by decide)).2.2⟩

/-- C5: an unknown provider name makes ScrapeProvider return success with
no effect at all (warning only), and Backfill with an unknown provider or
one that does not advertise backfill support is a no-op success: unchanged
state and an empty storage trace, so no storage operation is issued; since
the result is the same for every `fetchHistoricalPrices` behaviour of the
quantified provider, the fetch is not consulted either. -/
theorem unknown_or_unsupported_noop :
    (∀ (σ : Type) (db : DBModel σ) (now duration : Nat)
        (s : ScraperState σ) (name : String),
      s.providers.find? (fun q => q.name == name) = none →
      ScrapeProvider db now duration s name
        = { state := s, result := .ok (), storeOps := [] }) ∧
    (∀ (σ : Type) (db : DBModel σ) (s : ScraperState σ) (name : String)
        (fromDate toDate : Nat),
      s.providers.find? (fun q => q.name == name) = none →
      Backfill db s name fromDate toDate
        = { state := s, result := .ok (), storeOps := [] }) ∧
    (∀ (σ : Type) (db : DBModel σ) (s : ScraperState σ) (name : String)
        (p : Provider) (fromDate toDate : Nat),
      s.providers.find? (fun q => q.name == name) = some p →
      p.supportsBackfill = false →
      Backfill db s name fromDate toDate
        = { state := s, result := .ok (), storeOps := [] }) := by
  refine ⟨?_, ?_, ?_⟩
  · intro σ db now duration s name hf
    exact ScrapeProvider_none db now duration s hf
  · intro σ db s name fromDate toDate hf
    unfold Backfill
    rw [hf]
  · intro σ db s name p fromDate toDate hf hsb
    rw [Backfill_found db s fromDate toDate hf]
    unfold backfillResolved
    rw [hsb]
    rfl

/-- Witness for C5: the concrete two-provider scraper; "missing" is not
registered and "stub" does not support backfill. -/
theorem unknown_or_unsupported_noop_witness :
    ScrapeProvider pgDB 1 2 twoProviderState "missing"
      = { state := twoProviderState, result := .ok (), storeOps := [] } ∧
    Backfill pgDB twoProviderState "missing" 0 10
      = { state := twoProviderState, result := .ok (), storeOps := [] } ∧
    Backfill pgDB twoProviderState "stub" 0 10
      = { state := twoProviderState, result := .ok (), storeOps := [] } := by
  refine ⟨unknown_or_unsupported_noop.1 _ pgDB 1 2 twoProviderState
      "missing" rfl,
    unknown_or_unsupported_noop.2.1 _ pgDB twoProviderState "missing"
      0 10 rfl,
    unknown_or_unsupported_noop.2.2 _ pgDB twoProviderState "stub"
      okProvider 0 10 rfl rfl⟩

/-- C6: when the resolved provider's fetch errors, one ScrapeProvider call
bumps that provider's totalRequests by exactly one (the increment is issued
before the fetch in the source) and totalErrors by exactly one, sets
lastScrapeSuccess to false, records the error text, returns the error, and
issues no storage operation (empty trace, gateway state untouched). -/
theorem scrapeProvider_fetch_error_path {σ : Type} (db : DBModel σ)
    (now duration : Nat) (s : ScraperState σ) (name : String)
    (p : Provider) (e : String) (m : Metrics)
    (hf : s.providers.find? (fun q => q.name == name) = some p)
    (hfc : p.fetchCurrentPrices = .error e)
    (hm : s.providerMetrics name = some m) :
    (ScrapeProvider db now duration s name).result = .error e ∧
    (ScrapeProvider db now duration s name).state.providerMetrics name
      = some { m with totalRequests := m.totalRequests + 1,
                      totalErrors := m.totalErrors + 1,
                      lastScrapeAt := some now, lastResponseTime := duration,
                      lastScrapeSuccess := false, lastError := some e } ∧
    (ScrapeProvider db now duration s name).storeOps = [] ∧
    (ScrapeProvider db now duration s name).state.dbState = s.dbState := by
  rw [ScrapeProvider_found db now duration s hf]
  unfold scrapeResolved
  rw [hfc]
  refine ⟨rfl, ?_, rfl, rfl⟩
  simp [updateMetrics, hm]

/-- Witness for C6: the failing stub provider on the concrete state. -/
theorem scrapeProvider_fetch_error_path_witness :
    (ScrapeProvider pgDB 3 4 twoProviderState "bad").result
      = .error "connection refused" ∧
    (ScrapeProvider pgDB 3 4 twoProviderState "bad").state.providerMetrics
        "bad"
      = some { totalRequests := 1, totalErrors := 1, lastScrapeAt := some 3,
               lastScrapeSuccess := false, lastResponseTime := 4,
               lastPrice := none, lastError := some "connection refused",
               lastRawResponse := [] } ∧
    (ScrapeProvider pgDB 3 4 twoProviderState "bad").storeOps = [] ∧
    (ScrapeProvider pgDB 3 4 twoProviderState "bad").state.dbState = [] :=
  scrapeProvider_fetch_error_path pgDB 3 4 twoProviderState "bad"
    badProvider "connection refused" Metrics.freshMetrics rfl rfl rfl

/-- C8: HasScrapedToday returns false for every registered local-scope
provider regardless of the gateway's behaviour or contents, and for every
registered non-local provider it returns exactly whether a record exists
for today's date with product type "standard" and the empty/null zip code
(the real PostgreSQL gateway's ExistsForDate). -/
theorem hasScrapedToday_scope_behaviour :
    (∀ (σ : Type) (db : DBModel σ) (s : ScraperState σ) (today : Nat)
        (name : String) (p : Provider),
      s.providers.find? (fun q => q.name == name) = some p →
      p.priceScope = PriceScope.localScope →
      HasScrapedToday db s today name = .ok false) ∧
    (∀ (s : ScraperState (List StoreRow)) (today : Nat) (name : String)
        (p : Provider),
      s.providers.find? (fun q => q.name == name) = some p →
      p.priceScope ≠ PriceScope.localScope →
      HasScrapedToday pgDB s today name
        = .ok (ExistsForDate s.dbState name "standard" today "")) := by
  constructor
  · intro σ db s today name p hf hsc
    rw [HasScrapedToday_found db s today hf]
    unfold hasScrapedResolved
    rw [if_pos hsc]
  · intro s today name p hf hsc
    rw [HasScrapedToday_found pgDB s today hf]
    unfold hasScrapedResolved
    rw [if_neg hsc]
    rfl

/-- Witness for C8: on a table already holding the national stub's record
for day 20123, the local provider reads false anyway and the national stub
reads exactly the existence check, which is true there. -/
theorem hasScrapedToday_scope_behaviour_witness :
    HasScrapedToday pgDB scrapedTodayState 20123 "hoyer" = .ok false ∧
    HasScrapedToday pgDB scrapedTodayState 20123 "stub"
      = .ok (ExistsForDate scrapedTodayState.dbState "stub" "standard"
          20123 "") ∧
    ExistsForDate scrapedTodayState.dbState "stub" "standard" 20123 ""
      = true :=
  ⟨hasScrapedToday_scope_behaviour.1 _ pgDB scrapedTodayState 20123 "hoyer"
      localProvider rfl rfl,
   hasScrapedToday_scope_behaviour.2 scrapedTodayState 20123 "stub"
      okProvider rfl (by decide),
   by decide⟩

/-- C10: a successful fetch that returns no observations still records the
success (lastScrapeSuccess true, lastError cleared) and the request, while
lastPrice, the raw-payload preview, and the error count retain the values
they held before the call. -/
theorem scrapeProvider_empty_fetch_frame {σ : Type} (db : DBModel σ)
    (now duration : Nat) (s : ScraperState σ) (name : String)
    (p : Provider) (m : Metrics)
    (hf : s.providers.find? (fun q => q.name == name) = some p)
    (hfc : p.fetchCurrentPrices = .ok ([] : List PriceResult))
    (hm : s.providerMetrics name = some m) :
    (ScrapeProvider db now duration s name).result = .ok () ∧
    (ScrapeProvider db now duration s name).state.providerMetrics name
      = some { m with totalRequests := m.totalRequests + 1,
                      lastScrapeAt := some now, lastResponseTime := duration,
                      lastScrapeSuccess := true, lastError := none } ∧
    ((ScrapeProvider db now duration s name).state.providerMetrics name).map
        Metrics.lastPrice = some m.lastPrice ∧
    ((ScrapeProvider db now duration s name).state.providerMetrics name).map
        Metrics.lastRawResponse = some m.lastRawResponse ∧
    ((ScrapeProvider db now duration s name).state.providerMetrics name).map
        Metrics.totalErrors = some m.totalErrors := by
  rw [ScrapeProvider_found db now duration s hf]
  unfold scrapeResolved
  rw [hfc]
  refine ⟨rfl, ?_, ?_, ?_, ?_⟩ <;> simp [updateMetrics, hm]

/-- Witness for C10: the empty-fetch provider on top of leftover metrics —
the stale price 1234, the stale preview and the error count survive. -/
theorem scrapeProvider_empty_fetch_frame_witness :
    (ScrapeProvider pgDB 20 6 emptyFetchState "empty").result = .ok () ∧
    (ScrapeProvider pgDB 20 6 emptyFetchState "empty").state.providerMetrics
        "empty"
      = some { totalRequests := 8, totalErrors := 2, lastScrapeAt := some 20,
               lastScrapeSuccess := true, lastResponseTime := 6,
               lastPrice := some 1234, lastError := none,
               lastRawResponse := [104, 105] } ∧
    ((ScrapeProvider pgDB 20 6 emptyFetchState "empty").state.providerMetrics
        "empty").map Metrics.lastPrice = some (some 1234) ∧
    ((ScrapeProvider pgDB 20 6 emptyFetchState "empty").state.providerMetrics
        "empty").map Metrics.lastRawResponse = some [104, 105] ∧
    ((ScrapeProvider pgDB 20 6 emptyFetchState "empty").state.providerMetrics
        "empty").map Metrics.totalErrors = some 2 :=
  scrapeProvider_empty_fetch_frame pgDB 20 6 emptyFetchState "empty"
    emptyFetchProvider prevMetrics rfl rfl rfl

/-- C7 counterexample: a successful fetch whose first (and only)
observation carries an empty raw payload; the call returns success yet the
stored preview is the stale previous value, not a preview of that
observation's payload — "sets lastPrice ... and stores a raw-payload
preview" fails on the preview half. -/
theorem scrapeProvider_success_preview_cex :
    ((ScrapeProvider pgDB 30 1 emptyRawState "noraw").state.providerMetrics
        "noraw").map Metrics.lastScrapeSuccess = some true ∧
    ((ScrapeProvider pgDB 30 1 emptyRawState "noraw").state.providerMetrics
        "noraw").map Metrics.lastPrice = some (some 8800) ∧
    ((ScrapeProvider pgDB 30 1 emptyRawState "noraw").state.providerMetrics
        "noraw").map Metrics.lastRawResponse
      ≠ some (truncateRaw emptyRawObs.rawResponse) := by
  decide

/-- C7 amended: on a successful fetch the provider's metrics record success
(lastScrapeSuccess true, lastError cleared, totalRequests up by one,
totalErrors untouched); with at least one observation, lastPrice becomes
the first observation's price and, when the first observation's raw payload
is non-empty, the preview becomes its truncation — the payload itself if at
most 10000 bytes, else its first 10000 bytes plus a 3-byte ellipsis marker,
hence always at most 10003 bytes; with an empty payload the previous
preview is retained. -/
theorem scrapeProvider_success_first_obs {σ : Type} (db : DBModel σ)
    (now duration : Nat) (s : ScraperState σ) (name : String)
    (p : Provider) (p0 : PriceResult) (rest : List PriceResult) (m : Metrics)
    (hf : s.providers.find? (fun q => q.name == name) = some p)
    (hfc : p.fetchCurrentPrices = .ok (p0 :: rest))
    (hm : s.providerMetrics name = some m) :
    (ScrapeProvider db now duration s name).result = .ok () ∧
    (ScrapeProvider db now duration s name).state.providerMetrics name
      = some (if 0 < p0.rawResponse.length then
          { m with totalRequests := m.totalRequests + 1,
                   lastScrapeAt := some now, lastResponseTime := duration,
                   lastScrapeSuccess := true, lastError := none,
                   lastPrice := some p0.pricePer100L,
                   lastRawResponse := truncateRaw p0.rawResponse }
        else
          { m with totalRequests := m.totalRequests + 1,
                   lastScrapeAt := some now, lastResponseTime := duration,
                   lastScrapeSuccess := true, lastError := none,
                   lastPrice := some p0.pricePer100L }) ∧
    (truncateRaw p0.rawResponse).length ≤ 10003 ∧
    (p0.rawResponse.length ≤ 10000 →
      truncateRaw p0.rawResponse = p0.rawResponse) ∧
    (10000 < p0.rawResponse.length →
      truncateRaw p0.rawResponse
        = p0.rawResponse.take 10000 ++ [46, 46, 46]) := by
  refine ⟨?_, ?_, ?_, ?_, ?_⟩
  · rw [ScrapeProvider_found db now duration s hf]
    unfold scrapeResolved
    rw [hfc]
  · rw [ScrapeProvider_found db now duration s hf]
    unfold scrapeResolved
    rw [hfc]
    by_cases hlen : 0 < p0.rawResponse.length <;>
      simp [updateMetrics, hm, hlen]
  · unfold truncateRaw
    split
    · simp only [List.length_append, List.length_take, List.length_cons,
        List.length_nil]
      omega
    · next h => omega
  · intro h
    unfold truncateRaw
    rw [if_neg (by omega)]
  · intro h
    unfold truncateRaw
    rw [if_pos (by omega)]

/-- Witness for C7 (amended): the succeeding stub with its 2-byte payload
"{}" — the preview is stored verbatim and the price recorded. -/
theorem scrapeProvider_success_first_obs_witness :
    (ScrapeProvider pgDB 40 2 twoProviderState "stub").result = .ok () ∧
    (ScrapeProvider pgDB 40 2 twoProviderState "stub").state.providerMetrics
        "stub"
      = some { totalRequests := 1, totalErrors := 0, lastScrapeAt := some 40,
               lastScrapeSuccess := true, lastResponseTime := 2,
               lastPrice := some 9781, lastError := none,
               lastRawResponse := [123, 125] } ∧
    (truncateRaw sampleObs.rawResponse).length ≤ 10003 := by
  have H := scrapeProvider_success_first_obs pgDB 40 2 twoProviderState
    "stub" okProvider sampleObs [] Metrics.freshMetrics rfl rfl rfl
  refine ⟨H.1, ?_, H.2.2.1⟩
  rw [H.2.1]
  decide

/-- C2 counterexample: GetMetrics returns the live record's pointer, not an
immutable copy — the totalRequests field observed through the very value
GetMetrics returned reads 0 before a scrape of that provider and 1 after
it, so a field "already returned" changes under later mutations. -/
theorem getMetrics_live_reference_cex :
    ((GetMetrics twoProviderState "bad").deref twoProviderState).map
        Metrics.totalRequests = some 0 ∧
    ((GetMetrics twoProviderState "bad").deref
        (ScrapeProvider pgDB 3 4 twoProviderState "bad").state).map
        Metrics.totalRequests = some 1 := by
  decide

/-- C2 amended: GetMetrics returns a reference to the provider's live
metrics record; the immutable, concurrency-safe copy is what
Metrics.GetSnapshot returns: it copies every field of the record it reads,
and being a value it is isolated from later mutations — after a further
(here failing) scrape the live record's counters have moved one past the
values frozen in a previously taken snapshot, which itself is unchanged. -/
theorem getSnapshot_copy_isolation :
    (∀ m : Metrics,
      m.GetSnapshot.totalRequests = m.totalRequests ∧
      m.GetSnapshot.totalErrors = m.totalErrors ∧
      m.GetSnapshot.lastScrapeAt = m.lastScrapeAt ∧
      m.GetSnapshot.lastScrapeSuccess = m.lastScrapeSuccess ∧
      m.GetSnapshot.lastResponseTime = m.lastResponseTime ∧
      m.GetSnapshot.lastPrice = m.lastPrice ∧
      m.GetSnapshot.lastError = m.lastError ∧
      m.GetSnapshot.lastRawResponse = m.lastRawResponse) ∧
    (∀ (σ : Type) (db : DBModel σ) (now duration : Nat)
        (s : ScraperState σ) (name : String) (p : Provider) (e : String)
        (m : Metrics),
      s.providers.find? (fun q => q.name == name) = some p →
      p.fetchCurrentPrices = .error e →
      (GetMetrics s name).deref s = some m →
      ∃ m2, (GetMetrics s name).deref
            (ScrapeProvider db now duration s name).state = some m2 ∧
        m2.totalRequests = m.GetSnapshot.totalRequests + 1 ∧
        m2.totalErrors = m.GetSnapshot.totalErrors + 1) := by
  constructor
  · intro m
    exact ⟨rfl, rfl, rfl, rfl, rfl, rfl, rfl, rfl⟩
  · intro σ db now duration s name p e m hf hfc hm
    refine ⟨metricsTransform now duration p m, ?_, ?_, ?_⟩
    · show (ScrapeProvider db now duration s name).state.providerMetrics name
        = some (metricsTransform now duration p m)
      rw [ScrapeProvider_metrics_self db now duration s hf]
      have hm2 : s.providerMetrics name = some m := hm
      rw [hm2]
      rfl
    · rw [metricsTransform_totalRequests]
      rfl
    · rw [metricsTransform_fetchError now duration p e hfc]
      rfl

/-- Witness for C2 (amended): a snapshot of the fresh metrics freezes both
counters at 0; after the failing scrape the live record reads 1 for each,
while the snapshot still reads 0. -/
theorem getSnapshot_copy_isolation_witness :
    Metrics.freshMetrics.GetSnapshot.totalRequests = 0 ∧
    Metrics.freshMetrics.GetSnapshot.totalErrors = 0 ∧
    ∃ m2, (GetMetrics twoProviderState "bad").deref
          (ScrapeProvider pgDB 9 9 twoProviderState "bad").state = some m2 ∧
      m2.totalRequests = Metrics.freshMetrics.GetSnapshot.totalRequests + 1 ∧
      m2.totalErrors = Metrics.freshMetrics.GetSnapshot.totalErrors + 1 :=
  ⟨(getSnapshot_copy_isolation.1 Metrics.freshMetrics).1.trans rfl,
   ((getSnapshot_copy_isolation.1 Metrics.freshMetrics).2.1).trans rfl,
   getSnapshot_copy_isolation.2 _ pgDB 9 9 twoProviderState "bad"
     badProvider "connection refused" Metrics.freshMetrics rfl rfl rfl⟩

/-- C4: after a successful fetch, ScrapeProvider's storage phase is exactly
the per-observation loop: every observation gets its own existence check in
order, whatever check or insert errors occur on the others; an observation
whose check reports "already exists" causes no insert/update call (its
contribution to the trace is the check alone, the gateway state is
untouched by it, and the rest of the batch is processed from that same
state); an observation whose check reports "not present" gets an upsert
issued; a check error likewise skips only that observation and leaves the
rest processed identically. The metrics still record the successful
fetch. -/
theorem scrapeProvider_dedup_before_store {σ : Type} (db : DBModel σ)
    (now duration : Nat) (s : ScraperState σ) (name : String)
    (p : Provider) (prices : List PriceResult)
    (hf : s.providers.find? (fun q => q.name == name) = some p)
    (hfc : p.fetchCurrentPrices = .ok prices) :
    (ScrapeProvider db now duration s name).result = .ok () ∧
    (ScrapeProvider db now duration s name).storeOps
      = (storePrices db s.storeRawResponse s.dbState prices).2 ∧
    ((ScrapeProvider db now duration s name).state.providerMetrics name).map
        Metrics.lastScrapeSuccess
      = (s.providerMetrics name).map (fun _ => true) ∧
    (∀ (l : List PriceResult) (dbS : σ),
      ((storePrices db s.storeRawResponse dbS l).2.filter
          StoreOp.isExistsCheck)
        = l.map StoreOp.existsCheck) ∧
    (∀ (dbS : σ) (q : PriceResult) (rest : List PriceResult),
      (db.existsForDate dbS q.provider q.productType q.date q.zipCode
          = .ok true →
        storePrices db s.storeRawResponse dbS (q :: rest)
          = ((storePrices db s.storeRawResponse dbS rest).1,
             .existsCheck q :: (storePrices db s.storeRawResponse dbS rest).2)) ∧
      (db.existsForDate dbS q.provider q.productType q.date q.zipCode
          = .ok false →
        StoreOp.insert q ∈ (storePrices db s.storeRawResponse dbS (q :: rest)).2) ∧
      (∀ e, db.existsForDate dbS q.provider q.productType q.date q.zipCode
          = .error e →
        storePrices db s.storeRawResponse dbS (q :: rest)
          = ((storePrices db s.storeRawResponse dbS rest).1,
             .existsCheck q :: (storePrices db s.storeRawResponse dbS rest).2))) := by
  refine ⟨?_, ?_, ?_, storePrices_checks_all db s.storeRawResponse, ?_⟩
  · rw [ScrapeProvider_found db now duration s hf]
    unfold scrapeResolved
    rw [hfc]
  · rw [ScrapeProvider_found db now duration s hf]
    unfold scrapeResolved
    rw [hfc]
  · rw [ScrapeProvider_metrics_self db now duration s hf]
    cases s.providerMetrics name <;>
      simp [metricsTransform_ok_success now duration p prices hfc]
  · intro dbS q rest
    refine ⟨fun hE => ?_, fun hE => ?_, fun e hE => ?_⟩
    · rw [storePrices, hE]
    · rw [storePrices, hE]
      cases db.insertPrice dbS q s.storeRawResponse <;> simp
    · rw [storePrices, hE]

/-- Witness for C4: the succeeding stub against a table already holding its
observation's key — the trace is the existence check alone (no insert), the
table is unchanged, and the metrics record the successful fetch. -/
theorem scrapeProvider_dedup_before_store_witness :
    (ScrapeProvider pgDB 50 1 dedupState "stub").result = .ok () ∧
    (ScrapeProvider pgDB 50 1 dedupState "stub").storeOps
      = [StoreOp.existsCheck sampleObs] ∧
    ((ScrapeProvider pgDB 50 1 dedupState "stub").state.providerMetrics
        "stub").map Metrics.lastScrapeSuccess = some true ∧
    storePrices pgDB dedupState.storeRawResponse [stubRow] [sampleObs]
      = ([stubRow], [StoreOp.existsCheck sampleObs]) := by
  have H := scrapeProvider_dedup_before_store pgDB 50 1 dedupState "stub"
    okProvider [sampleObs] rfl rfl
  refine ⟨H.1, ?_, H.2.2.1.trans (by decide), ?_⟩
  · rw [H.2.1]
    decide
  · exact ((H.2.2.2.2 [stubRow] sampleObs []).1 rfl).trans (by decide)

/-- C9: the store keeps at most one row per logical key (provider,
productType, date, zipCode), with absent zip a single distinguished NULL:
the upsert preserves the invariant, and so does every ScrapeProvider and
Backfill run over the real gateway; two national-scope observations for
the same provider/productType/date with no zip collide on the same key
(after the first is stored, the dedup check finds the second's key, so it
is skipped or, via the upsert's conflict clause, overwrites rather than
duplicates); two local-scope observations with distinct zips are distinct
keys. -/
theorem logicalKey_at_most_one_per_key :
    (∀ (table : List StoreRow) (price : PriceResult) (storeRaw : Bool),
      AtMostOnePerKey table →
      AtMostOnePerKey (InsertPrice table price storeRaw)) ∧
    (∀ (now duration : Nat) (s : ScraperState (List StoreRow))
        (name : String),
      AtMostOnePerKey s.dbState →
      AtMostOnePerKey (ScrapeProvider pgDB now duration s name).state.dbState) ∧
    (∀ (s : ScraperState (List StoreRow)) (name : String)
        (fromDate toDate : Nat),
      AtMostOnePerKey s.dbState →
      AtMostOnePerKey (Backfill pgDB s name fromDate toDate).state.dbState) ∧
    (∀ p1 p2 : PriceResult, p1.provider = p2.provider →
      p1.productType = p2.productType → p1.date = p2.date →
      p1.zipCode = "" → p2.zipCode = "" →
      priceKey p1 = priceKey p2 ∧
      ∀ (table : List StoreRow) (storeRaw : Bool),
        ExistsForDate (InsertPrice table p1 storeRaw) p2.provider
          p2.productType p2.date p2.zipCode = true) ∧
    (∀ p1 p2 : PriceResult, p1.zipCode ≠ "" → p2.zipCode ≠ "" →
      p1.zipCode ≠ p2.zipCode → priceKey p1 ≠ priceKey p2) := by
  refine ⟨InsertPrice_atMostOne, ?_, ?_, ?_, ?_⟩
  · intro now duration s name h
    cases hf : s.providers.find? (fun q => q.name == name) with
    | none =>
      rw [ScrapeProvider_none pgDB now duration s hf]
      exact h
    | some p =>
      rw [ScrapeProvider_found pgDB now duration s hf]
      unfold scrapeResolved
      cases hfc : p.fetchCurrentPrices with
      | error e => exact h
      | ok prices =>
        exact storePrices_pgDB_atMostOne s.storeRawResponse prices
          s.dbState h
  · intro s name fromDate toDate h
    cases hf : s.providers.find? (fun q => q.name == name) with
    | none =>
      unfold Backfill
      rw [hf]
      exact h
    | some p =>
      rw [Backfill_found pgDB s fromDate toDate hf]
      unfold backfillResolved
      split
      · exact h
      · cases hfh : p.fetchHistoricalPrices fromDate toDate with
        | error e => exact h
        | ok prices =>
          exact storePrices_pgDB_atMostOne s.storeRawResponse prices
            s.dbState h
  · intro p1 p2 hprov hpt hd hz1 hz2
    have hkey : priceKey p1 = priceKey p2 := by
      unfold priceKey zipParam
      rw [hprov, hpt, hd, hz1, hz2]
    refine ⟨hkey, fun table storeRaw => ?_⟩
    obtain ⟨r, hr, hrk⟩ := InsertPrice_mem_key table p1 storeRaw
    exact ExistsForDate_true_of_key _ p2 r hr (hrk.trans hkey)
  · intro p1 p2 hz1 hz2 hne hk
    unfold priceKey at hk
    simp only [Prod.mk.injEq] at hk
    have h4 := hk.2.2.2
    unfold zipParam at h4
    rw [if_neg hz1, if_neg hz2] at h4
    exact hne (Option.some_injective _ h4)

/-- Witness for C9: concrete checks — inserting the national stub
observation into the empty table keeps the invariant, a full scrape and a
backfill over the concrete states keep it, the two national observations
share a key and the second is seen as existing after the first is stored,
and the two local observations' keys differ. -/
theorem logicalKey_at_most_one_per_key_witness :
    AtMostOnePerKey (InsertPrice [] sampleObs true) ∧
    AtMostOnePerKey
      (ScrapeProvider pgDB 60 1 twoProviderState "stub").state.dbState ∧
    AtMostOnePerKey (Backfill pgDB dedupState "stub" 0 10).state.dbState ∧
    priceKey sampleObs = priceKey natObs2 ∧
    ExistsForDate (InsertPrice [] sampleObs true) natObs2.provider
      natObs2.productType natObs2.date natObs2.zipCode = true ∧
    priceKey locObs1 ≠ priceKey locObs2 := by
  have H := logicalKey_at_most_one_per_key
  have h4 := H.2.2.2.1 sampleObs natObs2 rfl rfl rfl rfl rfl
  exact ⟨H.1 [] sampleObs true (by decide),
    H.2.1 60 1 twoProviderState "stub" (by decide),
    H.2.2.1 dedupState "stub" 0 10 (by decide),
    h4.1, h4.2 [] true,
    H.2.2.2.2 locObs1 locObs2 (by decide) (by decide) (by decide)⟩

end OilScraper
